import Mathlib

/-!
Shallow embedding of the Notion block/page tree synchronizer core of this
repository (src/libraries/notion/models.py, src/libraries/notion/notion_api.py,
src/libraries/common.py), together with theorems settling the frozen claims.

Python values that flow through the relevant code (decoded JSON records,
lists, strings, plus in-memory NotionBlock instances mixed into `children`
lists) are modelled by the inductive type `PyVal`.  Python dicts are
association lists with string keys in insertion order; `dictSet` has Python
assignment semantics (overwrite in place, else append).  Raised exceptions
are modelled by `Except PyErr`.
-/

set_option maxHeartbeats 1600000

namespace NotionSync

/-- Python exceptions relevant to the modelled code.  `badRequest` covers the
whole BadRequestException family of src/libraries/sso_core/exceptions.py;
its first field tells the concrete subclass apart. -/
inductive BRKind where
  | exceededRateLimit
  | badPayload
  | unauthorized
  | serverSide
  | generic
  deriving Repr, DecidableEq

inductive PyErr where
  | keyError (key : String)
  | indexError
  | typeError
  | attributeError
  | badRequest (kind : BRKind) (message : String) (status : Nat)
  | valueError (message : String)
  /-- model-only: the mocked HTTP service ran out of scripted responses -/
  | noResponse
  deriving Repr, DecidableEq

/-- A Python value as it appears in the modelled code: JSON scalars, lists,
string-keyed dicts, and NotionBlock instances (which Python code mixes into
`children` lists before serialization).  A `pblock` carries the same fields
a NotionBlock instance holds: object, id, type_name, content, has_children
(the derived `type` enum member is a pure function of `type_name`, see
`determineBlockType`, so it is not stored separately). -/
inductive PyVal where
  | pstr (s : String)
  | pbool (b : Bool)
  | pint (n : Int)
  | pnone
  | plist (l : List PyVal)
  | pdict (d : List (String × PyVal))
  | pblock (object : PyVal) (id : PyVal) (type_name : String)
           (content : PyVal) (has_children : PyVal)

abbrev Dict := List (String × PyVal)

/-- Python truthiness of a modelled value (`if x:`). -/
def pyTruthy : PyVal → Bool
  | .pstr s => s != ""
  | .pbool b => b
  | .pint n => n != 0
  | .pnone => false
  | .plist l => !l.isEmpty
  | .pdict d => !d.isEmpty
  | .pblock _ _ _ _ _ => true

mutual

/-- Python `==` on modelled values (structural equality; values of different
shapes compare unequal, as Python `==` between unrelated types returns
False).  NotionBlock instances compare by their fields, which is stricter
than Python identity but is never exercised by the modelled code. -/
def pyEq : PyVal → PyVal → Bool
  | .pstr a, .pstr b => a == b
  | .pbool a, .pbool b => a == b
  | .pint a, .pint b => a == b
  | .pnone, .pnone => true
  | .plist a, .plist b => pyEqList a b
  | .pdict a, .pdict b => pyEqDict a b
  | .pblock o1 i1 t1 c1 h1, .pblock o2 i2 t2 c2 h2 =>
    pyEq o1 o2 && pyEq i1 i2 && (t1 == t2) && pyEq c1 c2 && pyEq h1 h2
  | _, _ => false

def pyEqList : List PyVal → List PyVal → Bool
  | [], [] => true
  | a :: as1, b :: bs1 => pyEq a b && pyEqList as1 bs1
  | _, _ => false

def pyEqDict : List (String × PyVal) → List (String × PyVal) → Bool
  | [], [] => true
  | (k1, v1) :: as1, (k2, v2) :: bs1 => (k1 == k2) && pyEq v1 v2 && pyEqDict as1 bs1
  | _, _ => false

end

/-- `d[k]` on a dict body: the first binding wins (our dicts keep keys
unique, mirroring Python dicts). -/
def dictGet (d : Dict) (k : String) : Option PyVal :=
  match d with
  | [] => none
  | (k1, v) :: rest => if k1 = k then some v else dictGet rest k

/-- `d[k] = v`: overwrite in place when the key exists, else append
(Python insertion-order semantics). -/
def dictSet (d : Dict) (k : String) (v : PyVal) : Dict :=
  match d with
  | [] => [(k, v)]
  | (k1, v1) :: rest => if k1 = k then (k, v) :: rest else (k1, v1) :: dictSet rest k v

/-- Subscript `v[k]` with a string key: KeyError when the key is absent,
TypeError when `v` is not a dict. -/
def pySub (v : PyVal) (k : String) : Except PyErr PyVal :=
  match v with
  | .pdict d =>
    match dictGet d k with
    | some w => .ok w
    | none => .error (.keyError k)
  | _ => .error .typeError

/-- Subscript `v[i]` with an int index (only used at index 0 in the source). -/
def pyIdx (v : PyVal) (i : Nat) : Except PyErr PyVal :=
  match v with
  | .plist l =>
    match l.get? i with
    | some w => .ok w
    | none => .error .indexError
  | .pstr s =>
    match s.toList.get? i with
    | some c => .ok (.pstr (String.mk [c]))
    | none => .error .indexError
  | _ => .error .typeError

/-- Method call `v.get(k)`: AttributeError when `v` is not a dict, else an
optional value (Python returns None for a missing key; callers below only
test truthiness or compare, so `Option` keeps that distinction visible). -/
def pyGetMeth (v : PyVal) (k : String) : Except PyErr (Option PyVal) :=
  match v with
  | .pdict d => .ok (dictGet d k)
  | _ => .error .attributeError

/-- Item assignment `v[k] = w`: TypeError when `v` is not a dict. -/
def pySetItem (v : PyVal) (k : String) (w : PyVal) : Except PyErr PyVal :=
  match v with
  | .pdict d => .ok (.pdict (dictSet d k w))
  | _ => .error .typeError

/-! Models of src/libraries/notion/models.py. -/

/-- ASCII lowercase of one character.  Python str.lower() agrees with this
on the ASCII type tags this API deals in. -/
def charLower (c : Char) : Char :=
  if 65 ≤ c.toNat ∧ c.toNat ≤ 90 then Char.ofNat (c.toNat + 32) else c

/-- Python str.lower() on the (ASCII) type-tag strings. -/
def strLower (s : String) : String := String.mk (s.toList.map charLower)

/-- NotionBlockType of models.py. -/
inductive NotionBlockType where
  | paragraph
  | heading_3
  | heading_2
  | heading_1
  | bulleted_list_item
  | child_database
  | divider
  | other
  | column_list
  | table
  | table_row
  deriving Repr, DecidableEq

/-- NotionBlock._determine_block_type of models.py. -/
def determineBlockType (type_name : String) : NotionBlockType :=
  let t := strLower type_name
  if t = "paragraph" then .paragraph
  else if t = "heading_3" then .heading_3
  else if t = "heading_2" then .heading_2
  else if t = "heading_1" then .heading_1
  else if t = "bulleted_list_item" then .bulleted_list_item
  else if t = "child_database" then .child_database
  else if t = "divider" then .divider
  else if t = "column_list" then .column_list
  else if t = "table" then .table
  else if t = "table_row" then .table_row
  else .other

/-- NotionPagePropertyType of models.py. -/
inductive NotionPagePropertyType where
  | select
  | people
  | rich_text
  | relation
  | last_edited_time
  | title
  | other
  | created_time
  | created_by
  | date
  | files
  | multi_select
  deriving Repr, DecidableEq

/-- NotionPageProperty._determine_property_type of models.py. -/
def determinePropertyType (type_name : String) : NotionPagePropertyType :=
  if strLower type_name = "select" then .select
  else if strLower type_name = "people" then .people
  else if strLower type_name = "rich_text" then .rich_text
  else if strLower type_name = "relation" then .relation
  else if strLower type_name = "last_edited_time" then .last_edited_time
  else if strLower type_name = "title" then .title
  else if strLower type_name = "created_time" then .created_time
  else if strLower type_name = "created_by" then .created_by
  else if strLower type_name = "date" then .date
  else if strLower type_name = "files" then .files
  else if strLower type_name = "multi_select" then .multi_select
  else .other

/-- In-memory NotionBlock instance: the fields NotionBlock.__init__ stores.
The derived enum member is recomputed from `type_name` on demand
(`determineBlockType` is a pure function, so storing it would be
redundant). -/
structure NBlock where
  object : PyVal
  id : PyVal
  type_name : String
  content : PyVal
  has_children : PyVal

/-- View of an NBlock as the `pblock` Python object it models. -/
def NBlock.toVal (b : NBlock) : PyVal :=
  .pblock b.object b.id b.type_name b.content b.has_children

/-- NotionBlock.__init__: reads `object`, `id`, `type`, the payload field
named by the type tag, and `has_children`, in that order; a missing key
raises KeyError.  A non-string type tag cannot index the string-keyed wire
record and is modelled as a TypeError. -/
def decodeBlock (d : Dict) : Except PyErr NBlock := do
  let obj ← pySub (.pdict d) "object"
  let idv ← pySub (.pdict d) "id"
  let tv ← pySub (.pdict d) "type"
  match tv with
  | .pstr tn => do
    let content ← pySub (.pdict d) tn
    let hc ← pySub (.pdict d) "has_children"
    pure ⟨obj, idv, tn, content, hc⟩
  | _ => .error .typeError

/-- NotionBlock.to_dict: a dict literal with keys `object`, `type` and the
type tag; built with `dictSet` so that a type tag colliding with a literal
key keeps Python's last-wins dict-literal semantics. -/
def blockToDict (b : NBlock) : Dict :=
  dictSet (dictSet (dictSet [] "object" b.object) "type" (.pstr b.type_name))
    b.type_name b.content

/-- In-memory NotionPageProperty instance (the `children := []` attribute the
constructor also sets is never read by the modelled code). -/
structure NProperty where
  name : String
  type_name : String
  content : PyVal

/-- NotionPageProperty.__init__: stores the name, reads the type tag and the
payload field named by it; a missing key raises KeyError. -/
def decodeProperty (name : String) (d : Dict) : Except PyErr NProperty := do
  let tv ← pySub (.pdict d) "type"
  match tv with
  | .pstr tn => do
    let content ← pySub (.pdict d) tn
    pure ⟨name, tn, content⟩
  | _ => .error .typeError

/-- NotionPageProperty.to_dict: the dict literal with keys `type` and the
type tag. -/
def propertyToDict (p : NProperty) : Dict :=
  dictSet (dictSet [] "type" (.pstr p.type_name)) p.type_name p.content

/-! Model of NotionAPI._convert_block_to_json (notion_api.py).  The Python
method mutates `block.content` in place and then returns `block.to_dict()`;
the model's core `convertBlockMut` returns the block with its mutated
content, and `convertBlockToJson` pairs it with the returned wire dict.
Two source details matter and are kept faithfully: the guard tests only the
truthiness of `content.get("children")`, and the accumulator list
`children = []` is created once before the loop over the two keys, so the
value stored under `"children"` is the same list object that the `"cells"`
iteration keeps appending to — after the loop both keys hold the full
accumulated list. -/

theorem sizeOf_dictGet {d : Dict} {k : String} {v : PyVal}
    (h : dictGet d k = some v) : sizeOf v < sizeOf d := by
  induction d with
  | nil => simp [dictGet] at h
  | cons kv rest ih =>
    obtain ⟨k1, v1⟩ := kv
    simp only [dictGet] at h
    by_cases hk : k1 = k
    · subst hk
      rw [if_pos rfl] at h
      cases h
      simp only [List.cons.sizeOf_spec, Prod.mk.sizeOf_spec]
      omega
    · rw [if_neg hk] at h
      have := ih h
      simp only [List.cons.sizeOf_spec]
      omega

/-- Characters of a Python string, as iteration over a `pstr` yields them. -/
def strElems (s : String) : List PyVal :=
  s.toList.map (fun c => .pstr (String.mk [c]))

/-- Keys of a Python dict, as iteration over a `pdict` yields them. -/
def dictElems (d : Dict) : List PyVal :=
  d.map (fun kv => .pstr kv.1)

mutual

/-- One element of a `children`/`cells` collection: a NotionBlock instance
is converted via the same operation (`child = self._convert_block_to_json(child)`),
anything else is appended unchanged. -/
def convertChild (v : PyVal) : Except PyErr PyVal :=
  match v with
  | .pblock o i tn c hc => do
    let b1 ← convertBlockMut ⟨o, i, tn, c, hc⟩
    pure (.pdict (blockToDict b1))
  | v => pure v
termination_by sizeOf v

/-- The `for child in ...: ... children.append(child)` loop over a list. -/
def convertChildren (l : List PyVal) : Except PyErr (List PyVal) :=
  match l with
  | [] => pure []
  | x :: xs => do
    let y ← convertChild x
    let ys ← convertChildren xs
    pure (y :: ys)
termination_by sizeOf l

/-- Iteration of `block.content[key]`: lists iterate their elements, strings
their characters, dicts their keys; other values are not iterable
(TypeError).  Characters and keys are strings, never NotionBlock instances,
so they are appended unchanged. -/
def iterConvert (v : PyVal) : Except PyErr (List PyVal) :=
  match v with
  | .plist l => convertChildren l
  | .pstr s => pure (strElems s)
  | .pdict d => pure (dictElems d)
  | _ => .error .typeError
termination_by sizeOf v

/-- Mutation phase of _convert_block_to_json: when `content.get("children")`
is truthy, both keys are folded through the single shared accumulator and
each present key is reassigned; the final value of the shared list is what
both assignments are observed to hold once the call returns. -/
def convertBlockMut (b : NBlock) : Except PyErr NBlock :=
  match hb : b.content with
  | .pdict d =>
    match h1 : dictGet d "children" with
    | some cv =>
      if pyTruthy cv then do
        let acc1 ← iterConvert cv
        match h2 : dictGet d "cells" with
        | some lv => do
          let acc2 ← iterConvert lv
          let accF := acc1 ++ acc2
          let d2 := dictSet (dictSet d "children" (.plist accF)) "cells" (.plist accF)
          pure ⟨b.object, b.id, b.type_name, .pdict d2, b.has_children⟩
        | none =>
          pure ⟨b.object, b.id, b.type_name, .pdict (dictSet d "children" (.plist acc1)),
            b.has_children⟩
      else pure b
    | none => pure b
  | _ => .error .attributeError
termination_by sizeOf b.content
decreasing_by
  · have := sizeOf_dictGet h1
    simp only [hb, PyVal.pdict.sizeOf_spec]
    omega
  · have := sizeOf_dictGet h2
    simp only [hb, PyVal.pdict.sizeOf_spec]
    omega

end

/-- NotionAPI._convert_block_to_json: mutates the block's content and
returns `block.to_dict()` of the mutated block; the pair exposes both the
mutated instance and the returned wire record. -/
def convertBlockToJson (b : NBlock) : Except PyErr (NBlock × Dict) := do
  let b1 ← convertBlockMut b
  pure (b1, blockToDict b1)

/-! Model of NotionAPI._check_response (notion_api.py): maps each response
status onto the BadRequestException taxonomy. -/

def checkResponse (status : Nat) (text : String) : Except PyErr Unit :=
  if status = 429 then
    .error (.badRequest .exceededRateLimit ("Notion API exceeded rate limit: " ++ text) status)
  else if status = 400 then
    .error (.badRequest .badPayload
      ("Notion API determined bad payload. Possibly exceeded size limit: " ++ text) status)
  else if status = 401 ∨ status = 403 then
    .error (.badRequest .unauthorized ("Notion API sent unauthorized: " ++ text) status)
  else if status ≥ 500 then
    .error (.badRequest .serverSide ("Notion API server error: " ++ text) status)
  else if status ≠ 200 then
    .error (.badRequest .generic ("Notion API returned error: " ++ text) status)
  else .ok ()

/-! Model of retry_on_bad_response (src/libraries/common.py).  The wrapped
callable is modelled as a function from the attempt index to an outcome;
the printed warning and the fixed 30-second sleep are recorded as an event
trace. -/

inductive Event where
  | warnRetry (status : Nat) (message : String)
  | sleep (seconds : Nat)
  deriving Repr, DecidableEq

def isBadRequest : PyErr → Bool
  | .badRequest _ _ _ => true
  | _ => false

/-- The `for _ in range(3)` loop of retry_on_bad_response.  Only
BadRequestException (and its subclasses, the `badRequest` family) is
caught; each caught error appends a printed warning and a 30-second sleep
to the trace.  When the loop exhausts its budget the last caught error is
re-raised; the `getD .typeError` arm models Python raising the initial
`error = None` (a TypeError), which is unreachable for a positive budget. -/
def retryGo {α : Type} (f : Nat → Except PyErr α) :
    Nat → Nat → List Event → Option PyErr → Except PyErr α × List Event
  | _, 0, trace, lastErr => (.error (lastErr.getD .typeError), trace)
  | attempt, rem + 1, trace, lastErr =>
    match f attempt with
    | .ok v => (.ok v, trace)
    | .error e =>
      match e with
      | .badRequest k m s =>
        retryGo f (attempt + 1) rem (trace ++ [.warnRetry s m, .sleep 30])
          (some (.badRequest k m s))
      | e1 => (.error e1, trace)

/-- retry_on_bad_response: three attempts in total. -/
def retryOnBadResponse {α : Type} (f : Nat → Except PyErr α) :
    Except PyErr α × List Event :=
  retryGo f 0 3 [] none

/-! Model of NotionAPI._set_bulleted_list_item_link (notion_api.py). -/

/-- Sequential decoding of `[NotionBlock(child) for child in ...]`. -/
def decodeBlocks : List Dict → Except PyErr (List NBlock)
  | [] => pure []
  | d :: rest => do
    let b ← decodeBlock d
    let bs ← decodeBlocks rest
    pure (b :: bs)

/-- Python iteration `for x in v`: lists yield elements, strings their
characters, dicts their keys; anything else raises TypeError. -/
def pyIter (v : PyVal) : Except PyErr (List PyVal) :=
  match v with
  | .plist l => .ok l
  | .pstr s => .ok (strElems s)
  | .pdict d => .ok (dictElems d)
  | _ => .error .typeError

def linkDict (url : String) : PyVal := .pdict [("url", .pstr url)]

/-- Inner loop over one block's `content["text"]` runs.  On the first run
whose `plain_text` equals the search text the update argument is built:
`new_block = deepcopy(block)` is taken before `item["text"]["link"]` is
assigned, and the assignment mutates the run of the original block, so with
`replace_only_matched_text = True` the block passed to the update is the
unmodified copy; with `False` its text content is replaced by the mutated
run.  Returns the `(block_id, block)` update argument, or `none` when the
block holds no matching run. -/
def scanRuns (b : NBlock) (text_to_match : String) (url : String)
    (replace_only_matched_text : Bool) :
    List PyVal → Except PyErr (Option (PyVal × NBlock))
  | [] => .ok none
  | run :: rest => do
    let pt ← pyGetMeth run "plain_text"
    match pt with
    | some v =>
      if pyEq v (.pstr text_to_match) then do
        let t ← pySub run "text"
        let t1 ← pySetItem t "link" (linkDict url)
        let run1 ← pySetItem run "text" t1
        if replace_only_matched_text then
          .ok (some (b.id, b))
        else do
          let c1 ← pySetItem b.content "text" (.plist [run1])
          let b1 : NBlock := ⟨b.object, b.id, b.type_name, c1, b.has_children⟩
          .ok (some (b1.id, b1))
      else scanRuns b text_to_match url replace_only_matched_text rest
    | none => scanRuns b text_to_match url replace_only_matched_text rest

/-- Outer loop over the bulleted-list blocks: the first block whose scan
produces an update ends the scan via the suppressed StopIteration; a full
pass without a match raises ValueError. -/
def scanBlocks (text_to_match : String) (url : String)
    (replace_only_matched_text : Bool) :
    List NBlock → Except PyErr (List (PyVal × NBlock))
  | [] => .error (.valueError ("Could not find " ++ text_to_match ++ " in bullet list"))
  | b :: rest => do
    let runsVal ← pySub b.content "text"
    let runs ← pyIter runsVal
    let r ← scanRuns b text_to_match url replace_only_matched_text runs
    match r with
    | some upd => .ok [upd]
    | none => scanBlocks text_to_match url replace_only_matched_text rest

/-- NotionAPI._set_bulleted_list_item_link, with the already-fetched page
children as input and the sequence of `_update_block(new_block.id,
new_block)` calls as output. -/
def setBulletedListItemLink (pageChildren : List Dict) (text_to_match : String)
    (url : String) (replace_only_matched_text : Bool) :
    Except PyErr (List (PyVal × NBlock)) := do
  let blocks ← decodeBlocks pageChildren
  let bullets := blocks.filter
    (fun b => determineBlockType b.type_name == NotionBlockType.bulleted_list_item)
  scanBlocks text_to_match url replace_only_matched_text bullets

/-! Model of NotionAPI._get_database_pages (notion_api.py).  The mocked
service is a list of scripted `(status_code, decoded json body)` responses,
consumed one per issued query.  The code reads `response.json()` without
ever calling `_check_response`, so the status component is never inspected;
the function also carries no retry decoration.  Alongside the `pages`
mapping the model records, per issued query, the `start_cursor` the payload
carried (`none` for a payload without one). -/

/-- The `try/except KeyError` title chain for one candidate `Name` key. -/
def titleLookup (item : PyVal) (nameKey : String) : Except PyErr PyVal := do
  let props ← pySub item "properties"
  let nm ← pySub props nameKey
  let tl ← pySub nm "title"
  let t0 ← pyIdx tl 0
  let tx ← pySub t0 "text"
  pySub tx "content"

/-- Per-page title extraction: the BOM-prefixed key first; only KeyError
triggers the fallback to the clean key. -/
def extractTitle (item : PyVal) : Except PyErr PyVal :=
  match titleLookup item "\uFEFFName" with
  | .ok t => .ok t
  | .error (.keyError _) => titleLookup item "Name"
  | .error e => .error e

/-- The `for item in results` body: skip non-page objects, extract and
attach the title, and key the record by its page id.  The model's mapping
has string keys, matching the service's string page ids; a non-string id
cannot arise from the wire format and is mapped to a TypeError. -/
def processResults : List PyVal → Dict → Except PyErr Dict
  | [], pages => .ok pages
  | item :: rest, pages => do
    let obj ← pySub item "object"
    if pyEq obj (.pstr "page") then do
      let title ← extractTitle item
      let item1 ← pySetItem item "title" title
      let idv ← pySub item1 "id"
      match idv with
      | .pstr idStr => processResults rest (dictSet pages idStr item1)
      | _ => .error .typeError
    else processResults rest pages

/-- The `while has_next` pagination loop.  Exhausting the scripted
responses while the loop still wants one is a model-only `noResponse`. -/
def getDatabasePagesGo : List (Nat × Dict) → PyVal → Dict → List (Option PyVal) →
    Except PyErr (Dict × List (Option PyVal))
  | [], _, _, _ => .error .noResponse
  | (_, body) :: rest, cursor, pages, sent =>
    let sent1 := sent ++ [if pyTruthy cursor then some cursor else none]
    do
      let results ← pySub (.pdict body) "results"
      let items ← pyIter results
      let pages1 ← processResults items pages
      match dictGet body "has_more" with
      | some hm =>
        if pyTruthy hm then do
          let nc ← pySub (.pdict body) "next_cursor"
          getDatabasePagesGo rest nc pages1 sent1
        else .ok (pages1, sent1)
      | none => .ok (pages1, sent1)

/-- NotionAPI._get_database_pages over a scripted service: starts with
`cursor = None` (the first payload carries no start_cursor) and an empty
`pages` mapping. -/
def getDatabasePages (responses : List (Nat × Dict)) :
    Except PyErr (Dict × List (Option PyVal)) :=
  getDatabasePagesGo responses .pnone [] []

/-! Concrete wire-record fixtures used by the theorems below. -/

/-- An already-wire-shaped child record, as it sits inside a `children`
collection. -/
def wireA : PyVal := .pdict [("object", .pstr "block")]

/-- A second wire-shaped record, sitting inside a `cells` collection. -/
def wireB : PyVal := .pdict [("x", .pstr "y")]

/-- A block whose content holds both a `children` and a `cells` key. -/
def bothKeysBlock : NBlock :=
  ⟨.pstr "block", .pstr "b1", "table",
    .pdict [("children", .plist [wireA]), ("cells", .plist [wireB])], .pbool false⟩

/-- A NotionBlock instance nested inside a `cells` collection. -/
def nestedBlock : PyVal :=
  .pblock (.pstr "block") (.pstr "n1") "paragraph"
    (.pdict [("rich_text", .plist [])]) (.pbool false)

/-- A block whose content holds a `cells` key but no `children` key. -/
def cellsOnlyBlock : NBlock :=
  ⟨.pstr "block", .pstr "b2", "table_row",
    .pdict [("cells", .plist [nestedBlock])], .pbool false⟩

/-- Content of `bothKeysBlock` after one conversion: the shared accumulator
leaves BOTH keys holding `children ++ cells`. -/
def bothKeysMutContent : Dict :=
  [("children", .plist [wireA, wireB]), ("cells", .plist [wireA, wireB])]

def bothKeysMutBlock : NBlock :=
  ⟨.pstr "block", .pstr "b1", "table", .pdict bothKeysMutContent, .pbool false⟩

/-- Wire payload returned by the first conversion of `bothKeysBlock`. -/
def bothKeysOut1 : Dict :=
  [("object", .pstr "block"), ("type", .pstr "table"),
    ("table", .pdict bothKeysMutContent)]

/-- Content after a second conversion of the already-converted block: each
key now holds the accumulation of both already-merged collections. -/
def bothKeysMutContent2 : Dict :=
  [("children", .plist [wireA, wireB, wireA, wireB]),
    ("cells", .plist [wireA, wireB, wireA, wireB])]

def bothKeysMutBlock2 : NBlock :=
  ⟨.pstr "block", .pstr "b1", "table", .pdict bothKeysMutContent2, .pbool false⟩

def bothKeysOut2 : Dict :=
  [("object", .pstr "block"), ("type", .pstr "table"),
    ("table", .pdict bothKeysMutContent2)]

/-- C1: the claim states that _convert_block_to_json normalizes every
`children`/`cells` collection to its own normalized value and converts
nested Block instances in each.  The code does not: with both keys present
the single shared accumulator list ends up assigned to BOTH keys (cells
receives the children elements and vice versa), and with only a `cells`
key the truthiness guard on `content.get("children")` skips normalization
entirely, so a nested Block instance survives unconverted into the
returned wire payload. -/
theorem convert_block_to_json_collections_bug :
    convertBlockToJson bothKeysBlock = .ok (bothKeysMutBlock, bothKeysOut1) ∧
    convertBlockToJson cellsOnlyBlock = .ok (cellsOnlyBlock,
      [("object", .pstr "block"), ("type", .pstr "table_row"),
        ("table_row", .pdict [("cells", .plist [nestedBlock])])]) := by
  constructor <;>
    · simp [convertBlockToJson, convertBlockMut, convertChild, convertChildren,
        iterConvert, dictGet, dictSet, pyTruthy, blockToDict, bothKeysBlock,
        cellsOnlyBlock, wireA, wireB, nestedBlock, bothKeysMutContent,
        bothKeysMutBlock, bothKeysOut1]
      rfl

/-- C2: the claim states _convert_block_to_json is idempotent and does not
duplicate or corrupt fields of an already-wire-shaped content.  The code
corrupts a both-keys content on the first application (each key receives
the merged collection) and duplicates every element on the second
application, so the two outputs differ. -/
theorem convert_block_to_json_not_idempotent :
    convertBlockToJson bothKeysBlock = .ok (bothKeysMutBlock, bothKeysOut1) ∧
    convertBlockToJson bothKeysMutBlock = .ok (bothKeysMutBlock2, bothKeysOut2) ∧
    bothKeysOut1 ≠ bothKeysOut2 := by
  refine ⟨?_, ?_, ?_⟩
  · simp [convertBlockToJson, convertBlockMut, convertChild, convertChildren,
      iterConvert, dictGet, dictSet, pyTruthy, blockToDict, bothKeysBlock,
      wireA, wireB, bothKeysMutContent, bothKeysMutBlock, bothKeysOut1]
    rfl
  · simp [convertBlockToJson, convertBlockMut, convertChild, convertChildren,
      iterConvert, dictGet, dictSet, pyTruthy, blockToDict, bothKeysMutBlock,
      wireA, wireB, bothKeysMutContent, bothKeysMutContent2, bothKeysMutBlock2,
      bothKeysOut2]
    rfl
  · simp [bothKeysOut1, bothKeysOut2, bothKeysMutContent, bothKeysMutContent2,
      wireA, wireB]

/-! Fixtures for the bulleted-list link operation. -/

/-- A text run whose plain text is "Click here". -/
def clickRun : PyVal :=
  .pdict [("plain_text", .pstr "Click here"),
    ("text", .pdict [("content", .pstr "Click here")])]

/-- The same run after `item["text"]["link"] = {"url": url}`. -/
def linkedClickRun : PyVal :=
  .pdict [("plain_text", .pstr "Click here"),
    ("text", .pdict [("content", .pstr "Click here"),
      ("link", .pdict [("url", .pstr "http://x")])])]

/-- A wire bulleted-list-item child whose text holds the given runs. -/
def bulletChild (id1 : String) (runs : List PyVal) : Dict :=
  [("object", .pstr "block"), ("id", .pstr id1),
    ("type", .pstr "bulleted_list_item"),
    ("bulleted_list_item", .pdict [("text", .plist runs)]),
    ("has_children", .pbool false)]

/-- The decoded NBlock for `bulletChild`. -/
def bulletBlock (id1 : String) (runs : List PyVal) : NBlock :=
  ⟨.pstr "block", .pstr id1, "bulleted_list_item",
    .pdict [("text", .plist runs)], .pbool false⟩

/-- A run that does not match "Click here". -/
def otherRun : PyVal :=
  .pdict [("plain_text", .pstr "nope"),
    ("text", .pdict [("content", .pstr "nope")])]

/-- A second matching run placed after the first match. -/
def clickRun2 : PyVal :=
  .pdict [("plain_text", .pstr "Click here"),
    ("text", .pdict [("content", .pstr "second")])]

/-- C3: the claim states that with replace_only_matched_text = True the
update keeps all runs and attaches the link to the matched run.  The code
takes `new_block = deepcopy(block)` before assigning the link into the
original block's run, so with True the block passed to the update is the
unmodified original — no run carries the link.  With False the claim's
description holds: the sent block's text content is exactly the matched
run with the link attached. -/
theorem set_bulleted_list_item_link_replace_only_bug :
    setBulletedListItemLink [bulletChild "blk1" [clickRun]] "Click here" "http://x" false =
      .ok [(.pstr "blk1", bulletBlock "blk1" [linkedClickRun])] ∧
    setBulletedListItemLink [bulletChild "blk1" [clickRun]] "Click here" "http://x" true =
      .ok [(.pstr "blk1", bulletBlock "blk1" [clickRun])] := by
  constructor <;>
    · simp [setBulletedListItemLink, decodeBlocks, decodeBlock, scanBlocks, scanRuns,
        bulletChild, bulletBlock, clickRun, linkedClickRun, pySub, pyGetMeth,
        pySetItem, pyIter, pyEq, dictGet, dictSet, determineBlockType, linkDict]
      rfl

/-- A run (a `text` entry of a bulleted-list block) that does not match the
search text: a dict whose `plain_text`, when present, differs from it.
This is exactly what the scan's `item.get("plain_text") == text_to_match`
test rejects. -/
def runNoMatch (t : String) (run : PyVal) : Bool :=
  match run with
  | .pdict d =>
    match dictGet d "plain_text" with
    | some v => !pyEq v (.pstr t)
    | none => true
  | _ => false

/-- A decoded block whose scan completes without a match or an exception:
its content is a dict holding a `text` list all of whose runs are
non-matching dicts. -/
def blockScanSafe (t : String) (b : NBlock) : Bool :=
  match b.content with
  | .pdict d =>
    match dictGet d "text" with
    | some (.plist runs) => runs.all (runNoMatch t)
    | _ => false
  | _ => false

theorem scanRuns_none_of_noMatch {b : NBlock} {t url : String} {ro : Bool} :
    ∀ {runs : List PyVal}, runs.all (runNoMatch t) = true →
      scanRuns b t url ro runs = .ok none := by
  intro runs
  induction runs with
  | nil => intro _; rfl
  | cons run rest ih =>
    intro h
    rw [List.all_cons, Bool.and_eq_true] at h
    obtain ⟨h1, h2⟩ := h
    cases run with
    | pdict d =>
      cases hg : dictGet d "plain_text" with
      | none =>
        simp [scanRuns, pyGetMeth, hg, ih h2, bind, Except.bind]
      | some v =>
        simp only [runNoMatch, hg, Bool.not_eq_true'] at h1
        simp [scanRuns, pyGetMeth, hg, h1, ih h2, bind, Except.bind]
    | pstr s => simp [runNoMatch] at h1
    | pbool b1 => simp [runNoMatch] at h1
    | pint n => simp [runNoMatch] at h1
    | pnone => simp [runNoMatch] at h1
    | plist l => simp [runNoMatch] at h1
    | pblock o i tn c hc => simp [runNoMatch] at h1

/-- Unpacking of a `blockScanSafe` block: its content shape and the
all-runs-fail fact. -/
theorem blockScanSafe_spec {t : String} {b : NBlock}
    (hb : blockScanSafe t b = true) :
    ∃ d runs, b.content = .pdict d ∧ dictGet d "text" = some (.plist runs) ∧
      runs.all (runNoMatch t) = true := by
  unfold blockScanSafe at hb
  split at hb
  next d heq =>
    split at hb
    next runs heq2 => exact ⟨d, runs, heq, heq2, hb⟩
    next => simp at hb
  next => simp at hb

theorem scanBlocks_none_of_safe {t url : String} {ro : Bool} :
    ∀ {blocks : List NBlock}, (∀ b ∈ blocks, blockScanSafe t b = true) →
      scanBlocks t url ro blocks =
        .error (.valueError ("Could not find " ++ t ++ " in bullet list")) := by
  intro blocks
  induction blocks with
  | nil => intro _; rfl
  | cons b rest ih =>
    intro h
    obtain ⟨d, runs, hc, hg, hall⟩ := blockScanSafe_spec (h b (by simp))
    have hrest : ∀ x ∈ rest, blockScanSafe t x = true := fun x hx => h x (by simp [hx])
    have hnone := @scanRuns_none_of_noMatch b t url ro runs hall
    simp [scanBlocks, pySub, hc, hg, pyIter, hnone, ih hrest, bind, Except.bind]

theorem scanBlocks_ok_length {t url : String} {ro : Bool} :
    ∀ {blocks : List NBlock} {l : List (PyVal × NBlock)},
      scanBlocks t url ro blocks = .ok l → l.length = 1 := by
  intro blocks
  induction blocks with
  | nil => intro l h; simp [scanBlocks] at h
  | cons b rest ih =>
    intro l h
    cases h1 : pySub b.content "text" with
    | error e => simp [scanBlocks, h1, bind, Except.bind] at h
    | ok runsVal =>
      cases h2 : pyIter runsVal with
      | error e => simp [scanBlocks, h1, h2, bind, Except.bind] at h
      | ok runs =>
        cases h3 : scanRuns b t url ro runs with
        | error e => simp [scanBlocks, h1, h2, h3, bind, Except.bind] at h
        | ok r =>
          cases r with
          | some upd =>
            simp only [scanBlocks, h1, h2, h3, bind, Except.bind,
              Except.ok.injEq] at h
            subst h
            rfl
          | none =>
            simp only [scanBlocks, h1, h2, h3, bind, Except.bind] at h
            exact ih h

/-- C4: setListItemLink issues exactly one update for the first matching
run only and stops scanning; with no matching run anywhere it raises the
not-found ValueError naming the search text, an error outside the
BadRequestException family that the retry wrapper passes through
immediately, untouched. -/
theorem set_bulleted_list_item_link_single_update_and_not_found :
    (∀ (pc : List Dict) (t url : String) (ro : Bool) (l : List (PyVal × NBlock)),
      setBulletedListItemLink pc t url ro = .ok l → l.length = 1) ∧
    (setBulletedListItemLink
        [bulletChild "blk1" [otherRun, clickRun, clickRun2],
         bulletChild "blk2" [clickRun2]] "Click here" "http://x" false =
      .ok [(.pstr "blk1", bulletBlock "blk1" [linkedClickRun])]) ∧
    (∀ (pc : List Dict) (t url : String) (ro : Bool) (blocks : List NBlock),
      decodeBlocks pc = .ok blocks →
      (∀ b ∈ blocks.filter
          (fun b => determineBlockType b.type_name == NotionBlockType.bulleted_list_item),
        blockScanSafe t b = true) →
      setBulletedListItemLink pc t url ro =
        .error (.valueError ("Could not find " ++ t ++ " in bullet list")) ∧
      retryOnBadResponse (fun _ => setBulletedListItemLink pc t url ro) =
        (.error (.valueError ("Could not find " ++ t ++ " in bullet list")), [])) := by
  refine ⟨?_, ?_, ?_⟩
  · intro pc t url ro l h
    simp only [setBulletedListItemLink, bind, Except.bind] at h
    cases h0 : decodeBlocks pc <;> rw [h0] at h
    case error e => simp at h
    case ok blocks => exact scanBlocks_ok_length h
  · simp [setBulletedListItemLink, decodeBlocks, decodeBlock, scanBlocks, scanRuns,
      bulletChild, bulletBlock, clickRun, clickRun2, otherRun, linkedClickRun,
      pySub, pyGetMeth, pySetItem, pyIter, pyEq, dictGet, dictSet,
      determineBlockType, linkDict]
    rfl
  · intro pc t url ro blocks h0 hsafe
    have hmain : setBulletedListItemLink pc t url ro =
        .error (.valueError ("Could not find " ++ t ++ " in bullet list")) := by
      simp only [setBulletedListItemLink, bind, Except.bind, h0]
      exact scanBlocks_none_of_safe hsafe
    refine ⟨hmain, ?_⟩
    simp [retryOnBadResponse, retryGo, hmain]

/-- C4 witness: against a page with one bulleted block containing only the
run "Click here", searching for "Other" fails with the not-found ValueError
and the retry wrapper re-raises it at once. -/
theorem set_bulleted_list_item_link_not_found_witness :
    setBulletedListItemLink [bulletChild "blk1" [clickRun]] "Other" "http://x" false =
      .error (.valueError ("Could not find " ++ "Other" ++ " in bullet list")) ∧
    retryOnBadResponse
        (fun _ => setBulletedListItemLink [bulletChild "blk1" [clickRun]] "Other" "http://x" false) =
      (.error (.valueError ("Could not find " ++ "Other" ++ " in bullet list")), []) :=
  set_bulleted_list_item_link_single_update_and_not_found.2.2
    [bulletChild "blk1" [clickRun]] "Other" "http://x" false
    [bulletBlock "blk1" [clickRun]]
    (by simp [decodeBlocks, decodeBlock, bulletChild, bulletBlock, pySub, dictGet]; rfl)
    (by intro b hb
        have hf : List.filter
            (fun b => determineBlockType b.type_name == NotionBlockType.bulleted_list_item)
            [bulletBlock "blk1" [clickRun]] = [bulletBlock "blk1" [clickRun]] := rfl
        rw [hf] at hb
        rw [List.mem_singleton] at hb
        subst hb
        rfl)

/-- The retry loop consults the wrapped callable only at the attempt
indices its remaining budget covers. -/
theorem retryGo_congr {α : Type} (f g : Nat → Except PyErr α) :
    ∀ (rem attempt : Nat) (trace : List Event) (lastE : Option PyErr),
      (∀ j, j < rem → f (attempt + j) = g (attempt + j)) →
      retryGo f attempt rem trace lastE = retryGo g attempt rem trace lastE := by
  intro rem
  induction rem with
  | zero => intro attempt trace lastE _; rfl
  | succ n ih =>
    intro attempt trace lastE h
    have h0 : g attempt = f attempt := (h 0 (Nat.succ_pos n)).symm
    simp only [retryGo]
    rw [h0]
    cases hf : f attempt with
    | ok v => rfl
    | error e =>
      cases e <;> try rfl
      case badRequest k m s =>
        refine ih (attempt + 1) _ _ (fun j hj => ?_)
        have hs : attempt + 1 + j = attempt + (j + 1) := by omega
        rw [hs]
        exact h (j + 1) (by omega)

/-- C5: retry_on_bad_response makes at most 3 attempts in total, returns
the first success, logs one warning and sleeps a fixed 30 seconds per
caught bad-request-family error, re-raises the last error unchanged after
3 failed attempts, and lets any error outside the family surface
immediately without being caught or retried. -/
theorem retry_on_bad_response_policy {α : Type} (f : Nat → Except PyErr α) :
    (∀ g : Nat → Except PyErr α, f 0 = g 0 → f 1 = g 1 → f 2 = g 2 →
      retryOnBadResponse f = retryOnBadResponse g) ∧
    (∀ v, f 0 = .ok v → retryOnBadResponse f = (.ok v, [])) ∧
    (∀ k0 m0 s0 v, f 0 = .error (.badRequest k0 m0 s0) → f 1 = .ok v →
      retryOnBadResponse f = (.ok v, [.warnRetry s0 m0, .sleep 30])) ∧
    (∀ k0 m0 s0 k1 m1 s1 v, f 0 = .error (.badRequest k0 m0 s0) →
      f 1 = .error (.badRequest k1 m1 s1) → f 2 = .ok v →
      retryOnBadResponse f =
        (.ok v, [.warnRetry s0 m0, .sleep 30, .warnRetry s1 m1, .sleep 30])) ∧
    (∀ k0 m0 s0 k1 m1 s1 k2 m2 s2, f 0 = .error (.badRequest k0 m0 s0) →
      f 1 = .error (.badRequest k1 m1 s1) → f 2 = .error (.badRequest k2 m2 s2) →
      retryOnBadResponse f = (.error (.badRequest k2 m2 s2),
        [.warnRetry s0 m0, .sleep 30, .warnRetry s1 m1, .sleep 30,
         .warnRetry s2 m2, .sleep 30])) ∧
    (∀ e, f 0 = .error e → isBadRequest e = false →
      retryOnBadResponse f = (.error e, [])) ∧
    (∀ k0 m0 s0 e, f 0 = .error (.badRequest k0 m0 s0) → f 1 = .error e →
      isBadRequest e = false →
      retryOnBadResponse f = (.error e, [.warnRetry s0 m0, .sleep 30])) ∧
    (∀ k0 m0 s0 k1 m1 s1 e, f 0 = .error (.badRequest k0 m0 s0) →
      f 1 = .error (.badRequest k1 m1 s1) → f 2 = .error e → isBadRequest e = false →
      retryOnBadResponse f =
        (.error e, [.warnRetry s0 m0, .sleep 30, .warnRetry s1 m1, .sleep 30])) := by
  refine ⟨?_, ?_, ?_, ?_, ?_, ?_, ?_, ?_⟩
  · intro g h0 h1 h2
    refine retryGo_congr f g 3 0 [] none (fun j hj => ?_)
    match j, hj with
    | 0, _ => exact h0
    | 1, _ => exact h1
    | 2, _ => exact h2
  · intro v h0
    simp [retryOnBadResponse, retryGo, h0]
  · intro k0 m0 s0 v h0 h1
    simp [retryOnBadResponse, retryGo, h0, h1]
  · intro k0 m0 s0 k1 m1 s1 v h0 h1 h2
    simp [retryOnBadResponse, retryGo, h0, h1, h2]
  · intro k0 m0 s0 k1 m1 s1 k2 m2 s2 h0 h1 h2
    simp [retryOnBadResponse, retryGo, h0, h1, h2]
  · intro e h0 hb
    cases e <;> simp_all [retryOnBadResponse, retryGo, isBadRequest]
  · intro k0 m0 s0 e h0 h1 hb
    cases e <;> simp_all [retryOnBadResponse, retryGo, isBadRequest]
  · intro k0 m0 s0 k1 m1 s1 e h0 h1 h2 hb
    cases e <;> simp_all [retryOnBadResponse, retryGo, isBadRequest]

/-- C5 witness: a callable that fails with a 429 rate-limit error on every
attempt is retried exactly up to the 3-attempt ceiling, each failure
logging a warning and sleeping 30 seconds, and the last error is re-raised
unchanged. -/
theorem retry_on_bad_response_witness :
    retryOnBadResponse
        (fun _ => (.error (.badRequest .exceededRateLimit "rate" 429) : Except PyErr Unit)) =
      (.error (.badRequest .exceededRateLimit "rate" 429),
        [.warnRetry 429 "rate", .sleep 30, .warnRetry 429 "rate", .sleep 30,
         .warnRetry 429 "rate", .sleep 30]) :=
  (retry_on_bad_response_policy
      (fun _ => (.error (.badRequest .exceededRateLimit "rate" 429) : Except PyErr Unit))).2.2.2.2.1
    .exceededRateLimit "rate" 429 .exceededRateLimit "rate" 429
    .exceededRateLimit "rate" 429 rfl rfl rfl

/-! Fixtures for the database-query pagination. -/

/-- A title property payload holding one text run with the given content. -/
def titleProp (s : String) : PyVal :=
  .pdict [("title", .plist [.pdict [("text", .pdict [("content", .pstr s)])]])]

/-- A page record whose properties carry the clean `Name` key. -/
def pageRec (id1 t1 : String) : PyVal :=
  .pdict [("object", .pstr "page"), ("id", .pstr id1),
    ("properties", .pdict [("Name", titleProp t1)])]

/-- The same record after `item["title"] = title` appends the extracted
title string. -/
def pageAug (id1 t1 : String) : PyVal :=
  .pdict [("object", .pstr "page"), ("id", .pstr id1),
    ("properties", .pdict [("Name", titleProp t1)]), ("title", .pstr t1)]

/-- A final response body: results plus a has_more flag (no next_cursor). -/
def respBody (items : List PyVal) (more : Bool) : Dict :=
  [("results", .plist items), ("has_more", .pbool more)]

/-- A non-final response body: has_more true and a next_cursor. -/
def respBodyCursor (items : List PyVal) (nc : String) : Dict :=
  [("results", .plist items), ("has_more", .pbool true), ("next_cursor", .pstr nc)]

/-- C6: the claim states every §4.1–4.4 network call — including each
database query inside _get_database_pages — is status-checked against the
taxonomy and wrapped by the retry policy.  _check_response does implement
the taxonomy, but _get_database_pages decodes the response body without
ever calling it and carries no retry decoration: a query answered with
status 429 is treated as a success, its body folded into the result, with
no rate-limit error and no retry. -/
theorem database_query_status_unchecked :
    (checkResponse 429 "r" =
        .error (.badRequest .exceededRateLimit ("Notion API exceeded rate limit: " ++ "r") 429) ∧
      checkResponse 400 "r" =
        .error (.badRequest .badPayload
          ("Notion API determined bad payload. Possibly exceeded size limit: " ++ "r") 400) ∧
      checkResponse 401 "r" =
        .error (.badRequest .unauthorized ("Notion API sent unauthorized: " ++ "r") 401) ∧
      checkResponse 403 "r" =
        .error (.badRequest .unauthorized ("Notion API sent unauthorized: " ++ "r") 403) ∧
      checkResponse 503 "r" =
        .error (.badRequest .serverSide ("Notion API server error: " ++ "r") 503) ∧
      checkResponse 404 "r" =
        .error (.badRequest .generic ("Notion API returned error: " ++ "r") 404) ∧
      checkResponse 200 "r" = .ok ()) ∧
    getDatabasePages [(429, respBody [pageRec "p1" "T1"] false)] =
      .ok ([("p1", pageAug "p1" "T1")], [none]) := by
  exact ⟨⟨rfl, rfl, rfl, rfl, rfl, rfl, rfl⟩, rfl⟩

/-- C7: fetchAllPages issues one query per page while the service reports
more results, passing the prior response's next_cursor on every query
after the first (which carries none); with three scripted responses whose
has_more flags are true, true, false exactly three queries are issued, and
the result maps each page id to its raw record augmented with the
extracted title. -/
theorem get_database_pages_pagination (i1 i2 i3 t1 t2 t3 c1 c2 : String)
    (h12 : i1 ≠ i2) (h13 : i1 ≠ i3) (h23 : i2 ≠ i3)
    (hc1 : c1 ≠ "") (hc2 : c2 ≠ "") :
    getDatabasePages
        [(200, respBodyCursor [pageRec i1 t1] c1),
         (200, respBodyCursor [pageRec i2 t2] c2),
         (200, respBody [pageRec i3 t3] false)] =
      .ok ([(i1, pageAug i1 t1), (i2, pageAug i2 t2), (i3, pageAug i3 t3)],
        [none, some (.pstr c1), some (.pstr c2)]) := by
  simp [getDatabasePages, getDatabasePagesGo, respBody, respBodyCursor, processResults,
    pageRec, pageAug, titleProp, extractTitle, titleLookup, pySub, pyIdx, pySetItem,
    pyGetMeth, pyIter, pyEq, pyTruthy, dictGet, dictSet, bind, Except.bind,
    h12, h13, h23, hc1, hc2]

/-- C7 witness: concrete ids, titles and cursors. -/
theorem get_database_pages_pagination_witness :
    getDatabasePages
        [(200, respBodyCursor [pageRec "p1" "Spec A"] "cur1"),
         (200, respBodyCursor [pageRec "p2" "Spec B"] "cur2"),
         (200, respBody [pageRec "p3" "Spec C"] false)] =
      .ok ([("p1", pageAug "p1" "Spec A"), ("p2", pageAug "p2" "Spec B"),
            ("p3", pageAug "p3" "Spec C")],
        [none, some (.pstr "cur1"), some (.pstr "cur2")]) :=
  get_database_pages_pagination "p1" "p2" "p3" "Spec A" "Spec B" "Spec C" "cur1" "cur2"
    (by decide) (by decide) (by decide) (by decide) (by decide)

/-- C8: per-page title extraction tries the BOM-prefixed Name key first,
falls back to the clean Name key when the BOM-prefixed lookup fails with a
missing key, and propagates the lookup failure when neither key exists. -/
theorem extract_title_bom_fallback :
    (∀ (item : PyVal) (p : Dict) (s : String),
      pySub item "properties" = .ok (.pdict p) →
      dictGet p "\uFEFFName" = some (titleProp s) →
      extractTitle item = .ok (.pstr s)) ∧
    (∀ (item : PyVal) (p : Dict) (s : String),
      pySub item "properties" = .ok (.pdict p) →
      dictGet p "\uFEFFName" = none →
      dictGet p "Name" = some (titleProp s) →
      extractTitle item = .ok (.pstr s)) ∧
    (∀ (item : PyVal) (p : Dict),
      pySub item "properties" = .ok (.pdict p) →
      dictGet p "\uFEFFName" = none →
      dictGet p "Name" = none →
      extractTitle item = .error (.keyError "Name")) := by
  refine ⟨?_, ?_, ?_⟩
  · intro item p s h0 h1
    simp only [extractTitle, titleLookup, bind, Except.bind, h0]
    simp [pySub, h1, titleProp, dictGet, pyIdx]
  · intro item p s h0 h1 h2
    simp only [extractTitle, titleLookup, bind, Except.bind, h0]
    simp [pySub, h1, h2, titleProp, dictGet, pyIdx]
  · intro item p h0 h1 h2
    simp only [extractTitle, titleLookup, bind, Except.bind, h0]
    simp [pySub, h1, h2]

/-- C8 witness: a BOM-keyed record yields "Spec A", a clean-keyed record
yields its text, and a record with neither key fails. -/
theorem extract_title_witness :
    extractTitle (.pdict [("properties",
        .pdict [("\uFEFFName", titleProp "Spec A")])]) = .ok (.pstr "Spec A") ∧
    extractTitle (.pdict [("properties",
        .pdict [("Name", titleProp "Spec B")])]) = .ok (.pstr "Spec B") ∧
    extractTitle (.pdict [("properties", .pdict [])]) = .error (.keyError "Name") :=
  ⟨extract_title_bom_fallback.1 _ _ "Spec A" rfl rfl,
   extract_title_bom_fallback.2.1 _ _ "Spec B" rfl rfl rfl,
   extract_title_bom_fallback.2.2 _ _ rfl rfl rfl⟩

/-- C9: decoding a minimal property or block record (type tag plus its
same-named payload field) and re-encoding it reproduces the original
type/payload wrapping: the encoded record's type-tag entry and type field
agree with the original record's. -/
theorem decode_encode_round_trip :
    (∀ (name : String) (d : Dict) (tn : String) (c : PyVal),
      dictGet d "type" = some (.pstr tn) → dictGet d tn = some c →
      decodeProperty name d = .ok ⟨name, tn, c⟩ ∧
      dictGet (propertyToDict ⟨name, tn, c⟩) tn = dictGet d tn ∧
      dictGet (propertyToDict ⟨name, tn, c⟩) "type" = dictGet d "type") ∧
    (∀ (d : Dict) (tn : String) (c ov iv hv : PyVal),
      dictGet d "type" = some (.pstr tn) → dictGet d tn = some c →
      dictGet d "object" = some ov → dictGet d "id" = some iv →
      dictGet d "has_children" = some hv →
      decodeBlock d = .ok ⟨ov, iv, tn, c, hv⟩ ∧
      dictGet (blockToDict ⟨ov, iv, tn, c, hv⟩) tn = dictGet d tn ∧
      dictGet (blockToDict ⟨ov, iv, tn, c, hv⟩) "type" = dictGet d "type" ∧
      dictGet (blockToDict ⟨ov, iv, tn, c, hv⟩) "object" = dictGet d "object") := by
  constructor
  · intro name d tn c h1 h2
    have hdec : decodeProperty name d = .ok ⟨name, tn, c⟩ := by
      simp [decodeProperty, pySub, h1, h2, bind, Except.bind]
      rfl
    refine ⟨hdec, ?_, ?_⟩ <;>
    · by_cases htn : "type" = tn
      · subst htn
        rw [h2] at h1
        simp [propertyToDict, dictSet, dictGet, h1, h2]
      · simp [propertyToDict, dictSet, dictGet, htn, h1, h2]
  · intro d tn c ov iv hv h1 h2 h3 h4 h5
    have hdec : decodeBlock d = .ok ⟨ov, iv, tn, c, hv⟩ := by
      simp [decodeBlock, pySub, h1, h2, h3, h4, h5, bind, Except.bind]
      rfl
    refine ⟨hdec, ?_, ?_, ?_⟩ <;>
    · by_cases ho : "object" = tn
      · subst ho
        rw [h2] at h3
        simp [blockToDict, dictSet, dictGet, h1, h2, h3]
      · by_cases ht : "type" = tn
        · subst ht
          rw [h2] at h1
          simp [blockToDict, dictSet, dictGet, ho, h1, h2, h3]
        · simp [blockToDict, dictSet, dictGet, ho, ht, h1, h2, h3]

/-- A minimal select property record. -/
def propRecSelect : Dict :=
  [("type", .pstr "select"), ("select", .pdict [("name", .pstr "Red")])]

/-- A minimal paragraph block record. -/
def blockRecPara : Dict :=
  [("object", .pstr "block"), ("id", .pstr "b9"), ("type", .pstr "paragraph"),
    ("paragraph", .pdict [("rich_text", .plist [])]), ("has_children", .pbool false)]

/-- C9 witness: a select property record and a paragraph block record each
round-trip to the original wrapping. -/
theorem decode_encode_round_trip_witness :
    (decodeProperty "Status" propRecSelect =
        .ok ⟨"Status", "select", .pdict [("name", .pstr "Red")]⟩ ∧
      dictGet (propertyToDict ⟨"Status", "select", .pdict [("name", .pstr "Red")]⟩) "select" =
        dictGet propRecSelect "select" ∧
      dictGet (propertyToDict ⟨"Status", "select", .pdict [("name", .pstr "Red")]⟩) "type" =
        dictGet propRecSelect "type") ∧
    (decodeBlock blockRecPara =
        .ok ⟨.pstr "block", .pstr "b9", "paragraph",
          .pdict [("rich_text", .plist [])], .pbool false⟩ ∧
      dictGet (blockToDict ⟨.pstr "block", .pstr "b9", "paragraph",
          .pdict [("rich_text", .plist [])], .pbool false⟩) "paragraph" =
        dictGet blockRecPara "paragraph") :=
  ⟨⟨(decode_encode_round_trip.1 "Status" propRecSelect "select"
      (.pdict [("name", .pstr "Red")]) rfl rfl).1,
    (decode_encode_round_trip.1 "Status" propRecSelect "select"
      (.pdict [("name", .pstr "Red")]) rfl rfl).2.1,
    (decode_encode_round_trip.1 "Status" propRecSelect "select"
      (.pdict [("name", .pstr "Red")]) rfl rfl).2.2⟩,
   ⟨(decode_encode_round_trip.2 blockRecPara "paragraph"
      (.pdict [("rich_text", .plist [])]) (.pstr "block") (.pstr "b9")
      (.pbool false) rfl rfl rfl rfl rfl).1,
    (decode_encode_round_trip.2 blockRecPara "paragraph"
      (.pdict [("rich_text", .plist [])]) (.pstr "block") (.pstr "b9")
      (.pbool false) rfl rfl rfl rfl rfl).2.1⟩⟩

/-- C10: NotionBlock construction reads `object`, `id` and `has_children`
beyond the type tag and its payload field; a record missing any one of the
three fails with the corresponding KeyError even when the type tag and its
payload are both present. -/
theorem decode_block_required_keys :
    ∀ (d : Dict) (tn : String) (c : PyVal),
      dictGet d "type" = some (.pstr tn) → dictGet d tn = some c →
      ((dictGet d "object" = none → decodeBlock d = .error (.keyError "object")) ∧
       (∀ ov, dictGet d "object" = some ov → dictGet d "id" = none →
         decodeBlock d = .error (.keyError "id")) ∧
       (∀ ov iv, dictGet d "object" = some ov → dictGet d "id" = some iv →
         dictGet d "has_children" = none →
         decodeBlock d = .error (.keyError "has_children"))) := by
  intro d tn c h1 h2
  refine ⟨?_, ?_, ?_⟩
  · intro h0
    simp [decodeBlock, pySub, h0, bind, Except.bind]
  · intro ov h0 hid
    simp [decodeBlock, pySub, h0, hid, h1, bind, Except.bind]
  · intro ov iv h0 hid hhc
    simp [decodeBlock, pySub, h0, hid, h1, h2, hhc, bind, Except.bind]

/-- A paragraph record missing `object`. -/
def blockRecNoObject : Dict :=
  [("type", .pstr "paragraph"), ("paragraph", .pdict []),
    ("id", .pstr "b1"), ("has_children", .pbool false)]

/-- A paragraph record missing `id`. -/
def blockRecNoId : Dict :=
  [("object", .pstr "block"), ("type", .pstr "paragraph"),
    ("paragraph", .pdict []), ("has_children", .pbool false)]

/-- A paragraph record missing `has_children`. -/
def blockRecNoHasChildren : Dict :=
  [("object", .pstr "block"), ("id", .pstr "b1"),
    ("type", .pstr "paragraph"), ("paragraph", .pdict [])]

/-- C10 witness: three paragraph records, each with type tag and payload
present but one of object, id, has_children missing, each failing with the
matching KeyError. -/
theorem decode_block_required_keys_witness :
    decodeBlock blockRecNoObject = .error (.keyError "object") ∧
    decodeBlock blockRecNoId = .error (.keyError "id") ∧
    decodeBlock blockRecNoHasChildren = .error (.keyError "has_children") :=
  ⟨(decode_block_required_keys blockRecNoObject "paragraph" (.pdict []) rfl rfl).1 rfl,
   (decode_block_required_keys blockRecNoId "paragraph" (.pdict []) rfl rfl).2.1
     (.pstr "block") rfl rfl,
   (decode_block_required_keys blockRecNoHasChildren "paragraph" (.pdict []) rfl rfl).2.2
     (.pstr "block") (.pstr "b1") rfl rfl rfl⟩

end NotionSync
